import Mathlib

/-!
Shallow embedding of the simulated-robot repository (robot.py,
RobotAPattes.py, explorer_robot.py, delivery_robot.py).

Python floats are modelled as real numbers, Python ints as integers.
`int(x)` on a float truncates toward zero (`pyTrunc`); the float `%`
operator is floored modulus (`pyFmod`).  Raised exceptions are modelled
by an `Outcome` value returned next to the (unchanged) state, since the
Python methods validate before mutating.
-/

namespace RobotSim

/-- Python exception kinds raised by the robot code. -/
inductive PyError
  | valueError (msg : String)
  | typeError (msg : String)
  | nameError (msg : String)
  deriving Repr, DecidableEq

/-- Result channel of a method call: normal return, a message-only
no-op (inactive robot / already fully charged), or a raised error. -/
inductive Outcome
  | ok
  | inactive
  | fullyCharged
  | err (e : PyError)
  deriving Repr, DecidableEq

/-- A dynamically-typed Python argument: either a numeric value or a
value of some non-numeric type (so that `isinstance(angle, (int, float))`
checks are expressible). -/
inductive PyValue
  | num (x : ℝ)
  | nonNum (descr : String)

/-- `int(x)` in Python: truncation toward zero. -/
noncomputable def pyTrunc (x : ℝ) : ℤ := if 0 ≤ x then ⌊x⌋ else ⌈x⌉

/-- Python float `x % y`: floored modulus, `x - y * ⌊x / y⌋`. -/
noncomputable def pyFmod (x y : ℝ) : ℝ := x - y * ⌊x / y⌋

/-- Python `str.lower()`, modelled per character (the sources in this
repository are ASCII, where lowering is character-wise). -/
def pyLower (s : String) : String := ⟨s.data.map Char.toLower⟩

/-- `Robot.ENERGY_SOURCE` (robot.py): the valid energy sources. -/
def ENERGY_SOURCE : List String := ["solar", "fossil_fuel", "electric"]

/-- State of a legged robot: the fields set by `Robot.init` (robot.py)
plus `_nombre_pattes` set by `RobotAPattes.__init__` (RobotAPattes.py). -/
structure RobotAPattes where
  id : ℤ ⊕ String
  name : String
  position : ℝ × ℝ
  orientation : ℝ
  energy_source : String
  is_active : Bool
  generator_level : ℤ
  nombre_pattes : ℤ

namespace RobotAPattes

/-- Construction of a `RobotAPattes`: the validation and field
initialization written in `Robot.init` (robot.py, the constructor body
of the base class) followed by the leg-count validation of
`RobotAPattes.__init__` (RobotAPattes.py).  The type checks on `id`,
`name`, `position` and `orientation` are enforced by the Lean types of
the arguments. -/
def init (id : ℤ ⊕ String) (name : String) (position : ℝ × ℝ)
    (orientation : ℝ) (energy_source : String) (nombre_pattes : ℤ) :
    Except PyError RobotAPattes :=
  if pyLower energy_source ∉ ENERGY_SOURCE then
    .error (.valueError "Energy source must be an instance of ENERGY_SOURCE List.")
  else if nombre_pattes < 2 ∨ nombre_pattes % 2 ≠ 0 then
    .error (.valueError "Nombre de pattes doit etre un entier positif multiple de 2.")
  else
    .ok { id := id, name := name, position := position,
          orientation := orientation, energy_source := energy_source,
          is_active := true, generator_level := 100,
          nombre_pattes := nombre_pattes }

/-- `RobotAPattes._calculate_speed_factor`. -/
def _calculate_speed_factor (r : RobotAPattes) : ℝ :=
  if r.nombre_pattes = 2 then 0.8
  else if r.nombre_pattes = 4 then 1.0
  else if r.nombre_pattes = 6 then 1.2
  else if r.nombre_pattes = 8 then 1.1
  else 0.7

/-- `RobotAPattes._calculate_energy_cost`. -/
noncomputable def _calculate_energy_cost (r : RobotAPattes) (distance : ℝ) : ℤ :=
  pyTrunc ((distance * 0.1) * (1 + (r.nombre_pattes : ℝ) * 0.05))

/-- The "calculate new position based on direction and distance" block
of `RobotAPattes.move`: the raw `distance` is added along the direction
vector derived from the current orientation. -/
noncomputable def new_position (r : RobotAPattes) (direction : String) (distance : ℝ) :
    ℝ × ℝ :=
  let current_x := r.position.1
  let current_y := r.position.2
  if direction = "forward" then
    (current_x + distance * Real.cos r.orientation,
     current_y + distance * Real.sin r.orientation)
  else if direction = "backward" then
    (current_x - distance * Real.cos r.orientation,
     current_y - distance * Real.sin r.orientation)
  else if direction = "left" then
    (current_x + distance * Real.cos (r.orientation + Real.pi / 2),
     current_y + distance * Real.sin (r.orientation + Real.pi / 2))
  else
    (current_x + distance * Real.cos (r.orientation - Real.pi / 2),
     current_y + distance * Real.sin (r.orientation - Real.pi / 2))

/-- `RobotAPattes.move`: inactive robots print a message and return;
the direction and distance are validated; the new position is computed
from the raw `distance` along the direction vector; the speed factor is
applied only to the distance fed to the energy-cost formula. -/
noncomputable def move (r : RobotAPattes) (direction : String) (distance : ℝ) :
    RobotAPattes × Outcome :=
  if r.is_active = false then (r, .inactive)
  else if direction ∉ (["forward", "backward", "left", "right"] : List String) then
    (r, .err (.valueError "Direction must be one of forward, backward, left, or right."))
  else if distance ≤ 0 then
    (r, .err (.valueError "Distance must be a positive number."))
  else
    let new_pos := r.new_position direction distance
    let speed_factor := r._calculate_speed_factor
    let actual_distance := distance * speed_factor
    let energy_cost := r._calculate_energy_cost actual_distance
    ({ r with position := new_pos,
              generator_level := max 0 (r.generator_level - energy_cost) },
     .ok)

/-- `RobotAPattes.rotate`: inactive robots print a message and return;
a non-numeric angle raises `TypeError`; otherwise the orientation is
updated modulo `2π` and energy is deducted based on the stability
factor. -/
noncomputable def rotate (r : RobotAPattes) (angle : PyValue) :
    RobotAPattes × Outcome :=
  if r.is_active = false then (r, .inactive)
  else
    match angle with
    | .nonNum _ => (r, .err (.typeError "Angle must be a numeric value."))
    | .num a =>
      let newOrientation := pyFmod (r.orientation + a) (2 * Real.pi)
      let stability_factor := min 1.0 ((r.nombre_pattes : ℝ) / 6.0)
      let energy_cost := |a| * (10 / stability_factor)
      ({ r with orientation := newOrientation,
                generator_level := max 0 (r.generator_level - pyTrunc energy_cost) },
       .ok)

/-- `RobotAPattes.stop`: inactive robots print a message and return;
otherwise an energy cost based on the stop efficiency is deducted and a
report is printed.  Note: the method never assigns `is_active`. -/
noncomputable def stop (r : RobotAPattes) : RobotAPattes × Outcome :=
  if r.is_active = false then (r, .inactive)
  else
    let stop_efficiency := min 1.0 ((r.nombre_pattes : ℝ) / 4.0)
    let energy_cost : ℝ := 5 * (1 / stop_efficiency)
    ({ r with generator_level := max 0 (r.generator_level - pyTrunc energy_cost) },
     .ok)

/-- `RobotAPattes.recharge`: a no-op with a message when the level is
already ≥ 100; otherwise the rate depends on the lower-cased energy
source.  When no branch matches, Python reads the unbound local
`recharge_rate` and raises (modelled as a name error with the state
unchanged). -/
def recharge (r : RobotAPattes) : RobotAPattes × Outcome :=
  if 100 ≤ r.generator_level then (r, .fullyCharged)
  else if pyLower r.energy_source = "solar" then
    let recharge_rate := 15 + r.nombre_pattes * 2
    ({ r with generator_level := min 100 (r.generator_level + recharge_rate) }, .ok)
  else if pyLower r.energy_source = "electric" then
    let recharge_rate := 25 + r.nombre_pattes
    ({ r with generator_level := min 100 (r.generator_level + recharge_rate) }, .ok)
  else if pyLower r.energy_source = "fossil_fuel" then
    let recharge_rate : ℤ := 35
    ({ r with generator_level := min 100 (r.generator_level + recharge_rate) }, .ok)
  else (r, .err (.nameError "recharge_rate"))

end RobotAPattes

/-- One invocation on a legged robot, for reasoning about sequences of
operations. -/
inductive Op
  | move (direction : String) (distance : ℝ)
  | rotate (angle : PyValue)
  | stop
  | recharge

/-- Run one operation; a raised error leaves the state unchanged (the
methods validate before mutating). -/
noncomputable def RobotAPattes.runOp (r : RobotAPattes) : Op → RobotAPattes
  | .move direction distance => (r.move direction distance).1
  | .rotate angle => (r.rotate angle).1
  | .stop => r.stop.1
  | .recharge => r.recharge.1

/-- Run a sequence of operations from left to right. -/
noncomputable def RobotAPattes.runOps (r : RobotAPattes) (ops : List Op) : RobotAPattes :=
  ops.foldl RobotAPattes.runOp r

/-- Outcome of the simplified robots' `move`. -/
inductive SimpleOutcome
  | moved
  | insufficientBattery
  deriving Repr, DecidableEq

/-- State of an explorer robot (explorer_robot.py).  Modelled from the
spec: the simplified base class providing `_name`, `_position` and
`_battery_level` is not under src/ (explorer_robot.py imports a base
that never declares these fields); per the spec the simplified variants
hold a name, a position and a battery level plus `sensor_range`. -/
structure ExplorerRobot where
  name : String
  position : ℤ × ℤ
  battery_level : ℤ
  sensor_range : ℤ
  deriving Repr, DecidableEq

/-- `ExplorerRobot.move`: requires battery ≥ 10, advances position by
(+1, +1) and deducts 10 battery; otherwise reports insufficient
battery and changes nothing. -/
def ExplorerRobot.move (r : ExplorerRobot) : ExplorerRobot × SimpleOutcome :=
  if r.battery_level < 10 then (r, .insufficientBattery)
  else
    ({ r with position := (r.position.1 + 1, r.position.2 + 1),
              battery_level := r.battery_level - 10 }, .moved)

/-- State of a delivery robot (delivery_robot.py).  Modelled from the
spec: the simplified base class providing `_name`, `_position` and
`_battery_level` is not under src/; per the spec the simplified
variants hold a name, a position and a battery level plus `payload`
and `destination`. -/
structure DeliveryRobot where
  name : String
  position : ℤ × ℤ
  battery_level : ℤ
  payload : Option String
  destination : ℤ × ℤ
  deriving Repr, DecidableEq

/-- `DeliveryRobot.move`: requires battery ≥ 15, sets the position to
the destination and deducts 15 battery; otherwise reports insufficient
battery and changes nothing. -/
def DeliveryRobot.move (r : DeliveryRobot) : DeliveryRobot × SimpleOutcome :=
  if r.battery_level < 15 then (r, .insufficientBattery)
  else
    ({ r with position := r.destination,
              battery_level := r.battery_level - 15 }, .moved)

/-- `DeliveryRobot.load`. -/
def DeliveryRobot.load (r : DeliveryRobot) (item : String) : DeliveryRobot :=
  { r with payload := some item }

/-- `DeliveryRobot.unload`. -/
def DeliveryRobot.unload (r : DeliveryRobot) : DeliveryRobot :=
  { r with payload := none }

/-- The 4-legged electric robot of the demonstration scenario, as the
constructor produces it. -/
def rexRobot : RobotAPattes :=
  { id := .inl 1, name := "Rex", position := (0, 0), orientation := 0,
    energy_source := "electric", is_active := true, generator_level := 100,
    nombre_pattes := 4 }

/-- A 2-legged electric robot, used to exercise the speed factor. -/
def bipedRobot : RobotAPattes :=
  { id := .inl 2, name := "Bip", position := (0, 0), orientation := 0,
    energy_source := "electric", is_active := true, generator_level := 100,
    nombre_pattes := 2 }

/-- An inactive 4-legged robot, used to exercise the inactive no-op
paths. -/
def inactiveRobot : RobotAPattes :=
  { id := .inl 4, name := "Idle", position := (0, 0), orientation := 0,
    energy_source := "electric", is_active := false, generator_level := 100,
    nombre_pattes := 4 }

/-- A partially drained 4-legged electric robot, used to exercise the
recharge formulas. -/
def drainedRobot : RobotAPattes :=
  { id := .inl 3, name := "Drained", position := (0, 0), orientation := 0,
    energy_source := "electric", is_active := true, generator_level := 40,
    nombre_pattes := 4 }

/-- The explorer of the demonstration driver, with a full battery. -/
def scoutRobot : ExplorerRobot :=
  { name := "Scout-1", position := (0, 0), battery_level := 100, sensor_range := 5 }

/-- The delivery robot of the demonstration driver, with a full battery. -/
def carrierRobot : DeliveryRobot :=
  { name := "Carrier-1", position := (0, 0), battery_level := 100,
    payload := none, destination := (10, 10) }

/-! ### Basic lemmas about the Python primitives -/

theorem pyTrunc_eq_floor {x : ℝ} (hx : 0 ≤ x) : pyTrunc x = ⌊x⌋ := by
  rw [pyTrunc, if_pos hx]

theorem pyTrunc_nonneg {x : ℝ} (hx : 0 ≤ x) : 0 ≤ pyTrunc x := by
  rw [pyTrunc_eq_floor hx]
  exact Int.floor_nonneg.mpr hx

theorem pyFmod_nonneg (x : ℝ) {y : ℝ} (hy : 0 < y) : 0 ≤ pyFmod x y := by
  unfold pyFmod
  have h1 := (le_div_iff₀ hy).mp (Int.floor_le (x / y))
  linarith

theorem pyFmod_lt (x : ℝ) {y : ℝ} (hy : 0 < y) : pyFmod x y < y := by
  unfold pyFmod
  have h1 := (div_lt_iff₀ hy).mp (Int.lt_floor_add_one (x / y))
  linarith

/-! ### Lemmas about the legged-robot arithmetic -/

theorem speed_factor_pos (r : RobotAPattes) : 0 < r._calculate_speed_factor := by
  unfold RobotAPattes._calculate_speed_factor
  split_ifs <;> norm_num

theorem leg_term_nonneg {r : RobotAPattes} (h2 : 2 ≤ r.nombre_pattes) :
    (0 : ℝ) ≤ 1 + (r.nombre_pattes : ℝ) * 0.05 := by
  have h2r : (2 : ℝ) ≤ (r.nombre_pattes : ℝ) := by exact_mod_cast h2
  nlinarith

theorem energy_cost_nonneg {r : RobotAPattes} (h2 : 2 ≤ r.nombre_pattes)
    {d : ℝ} (hd : 0 ≤ d) : 0 ≤ r._calculate_energy_cost d := by
  unfold RobotAPattes._calculate_energy_cost
  exact pyTrunc_nonneg (by nlinarith [leg_term_nonneg h2])

theorem stability_factor_pos {r : RobotAPattes} (h2 : 2 ≤ r.nombre_pattes) :
    (0 : ℝ) < min 1.0 ((r.nombre_pattes : ℝ) / 6.0) := by
  have h2r : (2 : ℝ) ≤ (r.nombre_pattes : ℝ) := by exact_mod_cast h2
  have : (0 : ℝ) < (r.nombre_pattes : ℝ) / 6.0 := by nlinarith
  exact lt_min (by norm_num) this

theorem stop_efficiency_pos {r : RobotAPattes} (h2 : 2 ≤ r.nombre_pattes) :
    (0 : ℝ) < min 1.0 ((r.nombre_pattes : ℝ) / 4.0) := by
  have h2r : (2 : ℝ) ≤ (r.nombre_pattes : ℝ) := by exact_mod_cast h2
  have : (0 : ℝ) < (r.nombre_pattes : ℝ) / 4.0 := by nlinarith
  exact lt_min (by norm_num) this

/-! ### The energy invariant -/

/-- The invariant established by construction and preserved by every
operation: at least two legs, and an energy level within [0, 100]. -/
abbrev Inv (r : RobotAPattes) : Prop :=
  2 ≤ r.nombre_pattes ∧ 0 ≤ r.generator_level ∧ r.generator_level ≤ 100

theorem clamp_sub_mem {g c : ℤ} (hg0 : 0 ≤ g) (hg1 : g ≤ 100) (hc : 0 ≤ c) :
    0 ≤ max 0 (g - c) ∧ max 0 (g - c) ≤ 100 :=
  ⟨le_max_left 0 _, max_le (by norm_num) (by omega)⟩

theorem clamp_add_mem {g c : ℤ} (hg0 : 0 ≤ g) (hc : 0 ≤ c) :
    0 ≤ min 100 (g + c) ∧ min 100 (g + c) ≤ 100 :=
  ⟨le_min (by norm_num) (by omega), min_le_left _ _⟩

theorem init_inv {id name position orientation energy_source nombre_pattes r}
    (h : RobotAPattes.init id name position orientation energy_source
          nombre_pattes = .ok r) : Inv r := by
  unfold RobotAPattes.init at h
  split_ifs at h with h1 h2
  injection h with h3
  subst h3
  refine ⟨?_, by norm_num, by norm_num⟩
  show 2 ≤ nombre_pattes
  omega

theorem runOp_inv {r : RobotAPattes} (h : Inv r) (op : Op) : Inv (r.runOp op) := by
  obtain ⟨h2, hg0, hg1⟩ := h
  cases op with
  | move direction distance =>
    show Inv (r.move direction distance).1
    unfold RobotAPattes.move
    split_ifs with ha hdir hdist
    · exact ⟨h2, hg0, hg1⟩
    · exact ⟨h2, hg0, hg1⟩
    · push_neg at hdist
      have hc : 0 ≤ r._calculate_energy_cost (distance * r._calculate_speed_factor) :=
        energy_cost_nonneg h2 (le_of_lt (mul_pos hdist (speed_factor_pos r)))
      exact ⟨h2, (clamp_sub_mem hg0 hg1 hc).1, (clamp_sub_mem hg0 hg1 hc).2⟩
    · exact ⟨h2, hg0, hg1⟩
  | rotate angle =>
    show Inv (r.rotate angle).1
    unfold RobotAPattes.rotate
    split_ifs with ha
    · exact ⟨h2, hg0, hg1⟩
    · cases angle with
      | nonNum descr => exact ⟨h2, hg0, hg1⟩
      | num a =>
        have hsf := stability_factor_pos h2
        have hc : 0 ≤ pyTrunc (|a| * (10 / min 1.0 ((r.nombre_pattes : ℝ) / 6.0))) :=
          pyTrunc_nonneg (mul_nonneg (abs_nonneg a) (le_of_lt (by positivity)))
        exact ⟨h2, (clamp_sub_mem hg0 hg1 hc).1, (clamp_sub_mem hg0 hg1 hc).2⟩
  | stop =>
    show Inv r.stop.1
    unfold RobotAPattes.stop
    split_ifs with ha
    · exact ⟨h2, hg0, hg1⟩
    · have hse := stop_efficiency_pos h2
      have hc : 0 ≤ pyTrunc ((5 : ℝ) * (1 / min 1.0 ((r.nombre_pattes : ℝ) / 4.0))) :=
        pyTrunc_nonneg (by positivity)
      exact ⟨h2, (clamp_sub_mem hg0 hg1 hc).1, (clamp_sub_mem hg0 hg1 hc).2⟩
  | recharge =>
    show Inv r.recharge.1
    unfold RobotAPattes.recharge
    split_ifs with hfull hsolar helec hfossil
    · exact ⟨h2, hg0, hg1⟩
    · have hc : (0 : ℤ) ≤ 15 + r.nombre_pattes * 2 := by omega
      exact ⟨h2, (clamp_add_mem hg0 hc).1, (clamp_add_mem hg0 hc).2⟩
    · have hc : (0 : ℤ) ≤ 25 + r.nombre_pattes := by omega
      exact ⟨h2, (clamp_add_mem hg0 hc).1, (clamp_add_mem hg0 hc).2⟩
    · have hc : (0 : ℤ) ≤ 35 := by omega
      exact ⟨h2, (clamp_add_mem hg0 hc).1, (clamp_add_mem hg0 hc).2⟩
    · exact ⟨h2, hg0, hg1⟩

theorem runOps_inv {r : RobotAPattes} (h : Inv r) (ops : List Op) :
    Inv (r.runOps ops) := by
  induction ops generalizing r with
  | nil => exact h
  | cons op ops ih => exact ih (runOp_inv h op)

/-! ### Characterizations of the legged-robot operations -/

theorem move_inactive {r : RobotAPattes} (ha : r.is_active = false)
    (direction : String) (distance : ℝ) :
    r.move direction distance = (r, .inactive) := by
  unfold RobotAPattes.move
  rw [if_pos ha]

theorem move_bad_direction {r : RobotAPattes} {direction : String}
    (ha : r.is_active = true)
    (hdir : direction ∉ (["forward", "backward", "left", "right"] : List String))
    (distance : ℝ) :
    r.move direction distance =
      (r, .err (.valueError
        "Direction must be one of forward, backward, left, or right.")) := by
  unfold RobotAPattes.move
  rw [if_neg (by simp [ha]), if_pos hdir]

theorem move_bad_distance {r : RobotAPattes} {direction : String} {distance : ℝ}
    (ha : r.is_active = true)
    (hdir : direction ∈ (["forward", "backward", "left", "right"] : List String))
    (hdist : distance ≤ 0) :
    r.move direction distance =
      (r, .err (.valueError "Distance must be a positive number.")) := by
  unfold RobotAPattes.move
  rw [if_neg (by simp [ha]), if_neg (not_not_intro hdir), if_pos hdist]

theorem move_valid {r : RobotAPattes} {direction : String} {distance : ℝ}
    (ha : r.is_active = true)
    (hdir : direction ∈ (["forward", "backward", "left", "right"] : List String))
    (hdist : 0 < distance) :
    r.move direction distance =
      ({ r with position := r.new_position direction distance,
                generator_level := max 0 (r.generator_level -
                  r._calculate_energy_cost (distance * r._calculate_speed_factor)) },
       .ok) := by
  unfold RobotAPattes.move
  rw [if_neg (by simp [ha]), if_neg (not_not_intro hdir), if_neg (not_le.mpr hdist)]

theorem new_position_forward (r : RobotAPattes) (distance : ℝ) :
    r.new_position "forward" distance =
      (r.position.1 + distance * Real.cos r.orientation,
       r.position.2 + distance * Real.sin r.orientation) := by
  simp [RobotAPattes.new_position]

theorem new_position_backward (r : RobotAPattes) (distance : ℝ) :
    r.new_position "backward" distance =
      (r.position.1 - distance * Real.cos r.orientation,
       r.position.2 - distance * Real.sin r.orientation) := by
  simp [RobotAPattes.new_position]

theorem new_position_left (r : RobotAPattes) (distance : ℝ) :
    r.new_position "left" distance =
      (r.position.1 + distance * Real.cos (r.orientation + Real.pi / 2),
       r.position.2 + distance * Real.sin (r.orientation + Real.pi / 2)) := by
  simp [RobotAPattes.new_position]

theorem new_position_right (r : RobotAPattes) (distance : ℝ) :
    r.new_position "right" distance =
      (r.position.1 + distance * Real.cos (r.orientation - Real.pi / 2),
       r.position.2 + distance * Real.sin (r.orientation - Real.pi / 2)) := by
  simp [RobotAPattes.new_position]

theorem rotate_inactive {r : RobotAPattes} (ha : r.is_active = false)
    (angle : PyValue) : r.rotate angle = (r, .inactive) := by
  unfold RobotAPattes.rotate
  rw [if_pos ha]

theorem rotate_num {r : RobotAPattes} {a : ℝ} (ha : r.is_active = true) :
    r.rotate (.num a) =
      ({ r with orientation := pyFmod (r.orientation + a) (2 * Real.pi),
                generator_level := max 0 (r.generator_level -
                  pyTrunc (|a| * (10 / min 1.0 ((r.nombre_pattes : ℝ) / 6.0)))) },
       .ok) := by
  unfold RobotAPattes.rotate
  rw [if_neg (by simp [ha])]

theorem rotate_nonNum {r : RobotAPattes} {s : String} (ha : r.is_active = true) :
    r.rotate (.nonNum s) =
      (r, .err (.typeError "Angle must be a numeric value.")) := by
  unfold RobotAPattes.rotate
  rw [if_neg (by simp [ha])]

theorem stop_active {r : RobotAPattes} (ha : r.is_active = true) :
    r.stop = ({ r with generator_level := max 0 (r.generator_level -
        pyTrunc ((5 : ℝ) * (1 / min 1.0 ((r.nombre_pattes : ℝ) / 4.0)))) },
      .ok) := by
  unfold RobotAPattes.stop
  rw [if_neg (by simp [ha])]

theorem stop_fst_is_active (r : RobotAPattes) : r.stop.1.is_active = r.is_active := by
  unfold RobotAPattes.stop
  split_ifs <;> rfl

theorem recharge_full {r : RobotAPattes} (h : 100 ≤ r.generator_level) :
    r.recharge = (r, .fullyCharged) := by
  unfold RobotAPattes.recharge
  rw [if_pos h]

theorem recharge_solar {r : RobotAPattes} (h1 : r.generator_level < 100)
    (h2 : pyLower r.energy_source = "solar") :
    r.recharge =
      ({ r with generator_level := min 100 (r.generator_level + (15 + r.nombre_pattes * 2)) },
       .ok) := by
  unfold RobotAPattes.recharge
  rw [if_neg (not_le.mpr h1), if_pos h2]

theorem recharge_electric {r : RobotAPattes} (h1 : r.generator_level < 100)
    (h2 : pyLower r.energy_source = "electric") :
    r.recharge =
      ({ r with generator_level := min 100 (r.generator_level + (25 + r.nombre_pattes)) },
       .ok) := by
  unfold RobotAPattes.recharge
  rw [if_neg (not_le.mpr h1), if_neg (by rw [h2] ; decide), if_pos h2]

theorem recharge_fossil {r : RobotAPattes} (h1 : r.generator_level < 100)
    (h2 : pyLower r.energy_source = "fossil_fuel") :
    r.recharge =
      ({ r with generator_level := min 100 (r.generator_level + 35) }, .ok) := by
  unfold RobotAPattes.recharge
  rw [if_neg (not_le.mpr h1), if_neg (by rw [h2] ; decide),
      if_neg (by rw [h2] ; decide), if_pos h2]

/-! ### Concrete evaluations -/

theorem init_rex_eq :
    RobotAPattes.init (.inl 1) "Rex" (0, 0) 0 "electric" 4 = .ok rexRobot := by
  unfold RobotAPattes.init
  rw [if_neg (by decide), if_neg (by decide)]
  rfl

theorem rex_speed_factor : rexRobot._calculate_speed_factor = 1.0 := by
  simp [RobotAPattes._calculate_speed_factor, rexRobot]

theorem rex_move_cost_zero :
    rexRobot._calculate_energy_cost (5 * rexRobot._calculate_speed_factor) = 0 := by
  unfold RobotAPattes._calculate_energy_cost
  rw [rex_speed_factor]
  have harg : ((5 * (1.0 : ℝ)) * 0.1) * (1 + (rexRobot.nombre_pattes : ℝ) * 0.05)
      = 0.6 := by
    norm_num [rexRobot]
  rw [harg, pyTrunc_eq_floor (by norm_num)]
  norm_num [Int.floor_eq_zero_iff]

/-! ### The claims -/

/-- C1, counterexample: for a 2-legged entity at (0,0) with orientation
0, `move("forward", 5.0)` would have to end at
(0 + 5 × speedFactor(2) × cos 0, …) = (4, 0) under the claim, but the
code moves by the raw distance and ends at (5, 0). -/
theorem claim_C1_counterexample :
    ¬((bipedRobot.move "forward" 5).1.position =
        (bipedRobot.position.1 +
           5 * bipedRobot._calculate_speed_factor * Real.cos bipedRobot.orientation,
         bipedRobot.position.2 +
           5 * bipedRobot._calculate_speed_factor * Real.sin bipedRobot.orientation)) := by
  rw [move_valid (r := bipedRobot) rfl (by decide) (by norm_num)]
  show ¬(bipedRobot.new_position "forward" 5 = _)
  rw [new_position_forward]
  simp only [bipedRobot, RobotAPattes._calculate_speed_factor]
  norm_num [Prod.ext_iff]

/-- C1 (amended): for every active legged entity, valid direction and
positive distance, `move` succeeds, the new position is the old
position plus the raw distance (not distance × speedFactor) along the
unit direction vector derived from the orientation (forward: along it;
backward: opposite; left: +90°; right: −90°), and the speed factor
enters only the energy cost, deducted as
`_calculate_energy_cost (distance × speedFactor)` clamped at 0; the
4-legged scenario of the claim is unaffected since its speed factor
is 1.0. -/
theorem claim_C1_move_adds_raw_distance (r : RobotAPattes) (direction : String)
    (distance : ℝ) (ha : r.is_active = true)
    (hdir : direction ∈ (["forward", "backward", "left", "right"] : List String))
    (hdist : 0 < distance) :
    (r.move direction distance).2 = .ok ∧
    (r.move direction distance).1.position = r.new_position direction distance ∧
    (direction = "forward" → (r.move direction distance).1.position =
      (r.position.1 + distance * Real.cos r.orientation,
       r.position.2 + distance * Real.sin r.orientation)) ∧
    (direction = "backward" → (r.move direction distance).1.position =
      (r.position.1 - distance * Real.cos r.orientation,
       r.position.2 - distance * Real.sin r.orientation)) ∧
    (direction = "left" → (r.move direction distance).1.position =
      (r.position.1 + distance * Real.cos (r.orientation + Real.pi / 2),
       r.position.2 + distance * Real.sin (r.orientation + Real.pi / 2))) ∧
    (direction = "right" → (r.move direction distance).1.position =
      (r.position.1 + distance * Real.cos (r.orientation - Real.pi / 2),
       r.position.2 + distance * Real.sin (r.orientation - Real.pi / 2))) ∧
    (r.move direction distance).1.generator_level =
      max 0 (r.generator_level -
        r._calculate_energy_cost (distance * r._calculate_speed_factor)) := by
  rw [move_valid ha hdir hdist]
  refine ⟨rfl, rfl, ?_, ?_, ?_, ?_, rfl⟩
  · rintro rfl ; exact new_position_forward r distance
  · rintro rfl ; exact new_position_backward r distance
  · rintro rfl ; exact new_position_left r distance
  · rintro rfl ; exact new_position_right r distance

/-- Witness for C1 (amended): the 4-legged scenario — moving forward by
5.0 from (0,0) at orientation 0 succeeds, ends at (5,0) and leaves the
energy at 100. -/
theorem claim_C1_move_adds_raw_distance_witness :
    rexRobot.is_active = true ∧ (0 : ℝ) < 5 ∧
    (rexRobot.move "forward" 5).2 = .ok ∧
    (rexRobot.move "forward" 5).1.position = ((5 : ℝ), (0 : ℝ)) ∧
    (rexRobot.move "forward" 5).1.generator_level = 100 := by
  have h := claim_C1_move_adds_raw_distance rexRobot "forward" 5 rfl (by decide)
    (by norm_num)
  refine ⟨rfl, by norm_num, h.1, ?_, ?_⟩
  · rw [h.2.2.1 rfl]
    norm_num [rexRobot]
  · rw [h.2.2.2.2.2.2, rex_move_cost_zero]
    norm_num [rexRobot]

/-- C2: starting from any freshly constructed legged entity (which the
constructor gives energy 100), the energy level — an integer by type —
stays within [0, 100] after every finite sequence of move, rotate,
stop and recharge operations. -/
theorem claim_C2_energy_in_range
    (id : ℤ ⊕ String) (name : String) (position : ℝ × ℝ) (orientation : ℝ)
    (energy_source : String) (nombre_pattes : ℤ) (r : RobotAPattes)
    (h : RobotAPattes.init id name position orientation energy_source
          nombre_pattes = .ok r) (ops : List Op) :
    0 ≤ (r.runOps ops).generator_level ∧ (r.runOps ops).generator_level ≤ 100 :=
  ⟨(runOps_inv (init_inv h) ops).2.1, (runOps_inv (init_inv h) ops).2.2⟩

/-- Witness for C2: the 4-legged electric robot after a stop followed
by a recharge still has its energy within [0, 100]. -/
theorem claim_C2_energy_in_range_witness :
    0 ≤ (rexRobot.runOps [Op.stop, Op.recharge]).generator_level ∧
    (rexRobot.runOps [Op.stop, Op.recharge]).generator_level ≤ 100 :=
  claim_C2_energy_in_range (.inl 1) "Rex" (0, 0) 0 "electric" 4 rexRobot
    init_rex_eq [Op.stop, Op.recharge]

/-- C3 (code bug): `stop` never assigns the active flag, so it performs
no Active → Inactive transition — every robot keeps its activity state
across `stop()`, and the concrete active 4-legged robot is still active
after stopping, contrary to the claimed two-state machine; the gating
half of the claim does hold: `move` and `rotate` are message-only
no-ops on an inactive robot. -/
theorem claim_C3_stop_does_not_deactivate :
    (∀ r : RobotAPattes, r.stop.1.is_active = r.is_active) ∧
    rexRobot.stop.1.is_active = true ∧
    (∀ (r : RobotAPattes) (direction : String) (distance : ℝ),
        r.is_active = false → r.move direction distance = (r, .inactive)) ∧
    (∀ (r : RobotAPattes) (angle : PyValue),
        r.is_active = false → r.rotate angle = (r, .inactive)) :=
  ⟨stop_fst_is_active, stop_fst_is_active rexRobot,
   fun _ direction distance ha => move_inactive ha direction distance,
   fun _ angle ha => rotate_inactive ha angle⟩

/-- Witness for C3: the active robot is still active after `stop`, and
an inactive robot's `move` is a message-only no-op. -/
theorem claim_C3_stop_does_not_deactivate_witness :
    rexRobot.stop.1.is_active = true ∧
    inactiveRobot.move "forward" 1 = (inactiveRobot, .inactive) :=
  ⟨claim_C3_stop_does_not_deactivate.2.1,
   claim_C3_stop_does_not_deactivate.2.2.1 inactiveRobot "forward" 1 rfl⟩

/-- C5 (validation content): the constructor rejects every non-positive
or odd leg count with an error (no object is produced, the result being
an `Except.error`), and accepts 4 legs with the valid energy source
"electric", yielding the fully initialized robot. -/
theorem claim_C5_construction_validation :
    (∀ (id : ℤ ⊕ String) (name : String) (position : ℝ × ℝ)
        (orientation : ℝ) (energy_source : String) (nombre_pattes : ℤ),
        nombre_pattes ≤ 0 ∨ nombre_pattes % 2 = 1 →
        ∃ e, RobotAPattes.init id name position orientation energy_source
              nombre_pattes = .error e) ∧
    RobotAPattes.init (.inl 1) "Rex" (0, 0) 0 "electric" 4 = .ok rexRobot := by
  refine ⟨?_, init_rex_eq⟩
  intro id name position orientation energy_source nombre_pattes hbad
  unfold RobotAPattes.init
  split_ifs with h1 h2
  · exact ⟨_, rfl⟩
  · exfalso ; omega
  · exact ⟨_, rfl⟩

/-- Witness for C5: a 3-legged construction fails while the 4-legged
electric construction succeeds. -/
theorem claim_C5_construction_validation_witness :
    (∃ e, RobotAPattes.init (.inl 9) "Odd" (0, 0) 0 "electric" 3 = .error e) ∧
    RobotAPattes.init (.inl 1) "Rex" (0, 0) 0 "electric" 4 = .ok rexRobot :=
  ⟨claim_C5_construction_validation.1 (.inl 9) "Odd" (0, 0) 0 "electric" 3
     (by decide),
   claim_C5_construction_validation.2⟩

/-- C4: for every active legged entity and every real angle, `rotate`
succeeds, sets the orientation to (orientation + angle) mod 2π — which
lies in [0, 2π) — and deducts floor(|angle| × 10 / stabilityFactor)
energy clamped at 0, where stabilityFactor = min(1, legCount/6); a
non-numeric angle is rejected with a TypeError and the state is
unchanged. -/
theorem claim_C4_rotate (r : RobotAPattes) (a : ℝ) (s : String)
    (ha : r.is_active = true) (h2 : 2 ≤ r.nombre_pattes) :
    (r.rotate (.num a)).2 = .ok ∧
    (r.rotate (.num a)).1.orientation = pyFmod (r.orientation + a) (2 * Real.pi) ∧
    0 ≤ (r.rotate (.num a)).1.orientation ∧
    (r.rotate (.num a)).1.orientation < 2 * Real.pi ∧
    (r.rotate (.num a)).1.generator_level =
      max 0 (r.generator_level -
        ⌊|a| * 10 / min 1.0 ((r.nombre_pattes : ℝ) / 6.0)⌋) ∧
    r.rotate (.nonNum s) = (r, .err (.typeError "Angle must be a numeric value.")) := by
  have h2pi : (0 : ℝ) < 2 * Real.pi := by positivity
  rw [rotate_num ha, rotate_nonNum ha]
  refine ⟨rfl, rfl, pyFmod_nonneg _ h2pi, pyFmod_lt _ h2pi, ?_, rfl⟩
  have hs := stability_factor_pos h2
  have hx : 0 ≤ |a| * (10 / min 1.0 ((r.nombre_pattes : ℝ) / 6.0)) :=
    mul_nonneg (abs_nonneg a) (by positivity)
  show max 0 (r.generator_level -
      pyTrunc (|a| * (10 / min 1.0 ((r.nombre_pattes : ℝ) / 6.0)))) = _
  rw [pyTrunc_eq_floor hx, mul_div_assoc]

/-- Witness for C4: rotating the active 4-legged robot by 1 radian
leaves the orientation within [0, 2π). -/
theorem claim_C4_rotate_witness :
    rexRobot.is_active = true ∧ 2 ≤ rexRobot.nombre_pattes ∧
    0 ≤ (rexRobot.rotate (.num 1)).1.orientation ∧
    (rexRobot.rotate (.num 1)).1.orientation < 2 * Real.pi := by
  have h := claim_C4_rotate rexRobot 1 "x" rfl (by decide)
  exact ⟨rfl, by decide, h.2.2.1, h.2.2.2.1⟩

/-- C6: `recharge` is a no-op reporting a full charge when the level is
already ≥ 100; otherwise it succeeds and the new level is
min(100, old + rate) with rate 15 + 2×legCount for solar,
25 + legCount for electric and a flat 35 for fossil_fuel, the source
being matched case-insensitively. -/
theorem claim_C6_recharge (r : RobotAPattes)
    (hsrc : pyLower r.energy_source ∈ ENERGY_SOURCE) :
    (100 ≤ r.generator_level → r.recharge = (r, .fullyCharged)) ∧
    (r.generator_level < 100 →
      r.recharge.2 = .ok ∧
      r.recharge.1.generator_level =
        min 100 (r.generator_level +
          (if pyLower r.energy_source = "solar" then 15 + 2 * r.nombre_pattes
           else if pyLower r.energy_source = "electric" then 25 + r.nombre_pattes
           else 35))) := by
  refine ⟨recharge_full, ?_⟩
  intro hlt
  simp only [ENERGY_SOURCE, List.mem_cons, List.not_mem_nil, or_false] at hsrc
  rcases hsrc with h | h | h
  · rw [recharge_solar hlt h]
    refine ⟨rfl, ?_⟩
    rw [if_pos h]
    show min 100 (r.generator_level + (15 + r.nombre_pattes * 2)) = _
    omega
  · rw [recharge_fossil hlt h]
    refine ⟨rfl, ?_⟩
    rw [if_neg (by rw [h] ; decide), if_neg (by rw [h] ; decide)]
  · rw [recharge_electric hlt h]
    refine ⟨rfl, ?_⟩
    rw [if_neg (by rw [h] ; decide), if_pos h]

/-- Witness for C6: the drained electric 4-legged robot at 40% reaches
min(100, 40 + 25 + 4) = 69% after one recharge. -/
theorem claim_C6_recharge_witness :
    drainedRobot.generator_level < 100 ∧
    drainedRobot.recharge.2 = .ok ∧
    drainedRobot.recharge.1.generator_level = 69 := by
  have h := (claim_C6_recharge drainedRobot (by decide)).2 (by decide)
  refine ⟨by decide, h.1, ?_⟩
  rw [h.2]
  decide

/-- C7: on an active legged entity, `move` with an unrecognized
direction or a non-positive distance, and `rotate` with a non-numeric
angle, each raise an error and leave the whole state unchanged (the
returned state is the input state itself). -/
theorem claim_C7_validation_atomic (r : RobotAPattes) (direction : String)
    (distance : ℝ) (s : String) (ha : r.is_active = true) :
    (direction ∉ (["forward", "backward", "left", "right"] : List String) →
      r.move direction distance =
        (r, .err (.valueError
          "Direction must be one of forward, backward, left, or right."))) ∧
    (direction ∈ (["forward", "backward", "left", "right"] : List String) →
      distance ≤ 0 →
      r.move direction distance =
        (r, .err (.valueError "Distance must be a positive number."))) ∧
    r.rotate (.nonNum s) = (r, .err (.typeError "Angle must be a numeric value.")) :=
  ⟨fun hdir => move_bad_direction ha hdir distance,
   fun hdir hdist => move_bad_distance ha hdir hdist,
   rotate_nonNum ha⟩

/-- Witness for C7: an unknown direction, a negative distance and a
non-numeric angle each fail on the active 4-legged robot, returning the
unchanged state. -/
theorem claim_C7_validation_atomic_witness :
    rexRobot.move "up" 3 =
      (rexRobot, .err (.valueError
        "Direction must be one of forward, backward, left, or right.")) ∧
    rexRobot.move "forward" (-2) =
      (rexRobot, .err (.valueError "Distance must be a positive number.")) ∧
    rexRobot.rotate (.nonNum "hello") =
      (rexRobot, .err (.typeError "Angle must be a numeric value.")) := by
  have h1 := claim_C7_validation_atomic rexRobot "up" 3 "hello" rfl
  have h2 := claim_C7_validation_atomic rexRobot "forward" (-2) "hello" rfl
  exact ⟨h1.1 (by decide), h2.2.1 (by decide) (by norm_num), h1.2.2⟩

/-- C8: the explorer moves by exactly (+1, +1) deducting 10 battery
when the battery is at least 10 and reports insufficient battery
changing nothing otherwise; the delivery robot moves exactly to its
destination deducting 15 battery when the battery is at least 15 and
reports insufficient battery changing nothing otherwise. -/
theorem claim_C8_simple_moves (e : ExplorerRobot) (d : DeliveryRobot) :
    (10 ≤ e.battery_level →
      e.move = ({ e with position := (e.position.1 + 1, e.position.2 + 1),
                         battery_level := e.battery_level - 10 }, .moved)) ∧
    (e.battery_level < 10 → e.move = (e, .insufficientBattery)) ∧
    (15 ≤ d.battery_level →
      d.move = ({ d with position := d.destination,
                         battery_level := d.battery_level - 15 }, .moved)) ∧
    (d.battery_level < 15 → d.move = (d, .insufficientBattery)) := by
  refine ⟨?_, ?_, ?_, ?_⟩
  · intro h
    unfold ExplorerRobot.move
    rw [if_neg (not_lt.mpr h)]
  · intro h
    unfold ExplorerRobot.move
    rw [if_pos h]
  · intro h
    unfold DeliveryRobot.move
    rw [if_neg (not_lt.mpr h)]
  · intro h
    unfold DeliveryRobot.move
    rw [if_pos h]

/-- Witness for C8: the full-battery scout steps from (0,0) to (1,1)
at battery 90, and the full-battery carrier jumps to its destination
(10,10) at battery 85. -/
theorem claim_C8_simple_moves_witness :
    scoutRobot.move =
      ({ scoutRobot with position := (1, 1), battery_level := 90 }, .moved) ∧
    carrierRobot.move =
      ({ carrierRobot with position := (10, 10), battery_level := 85 }, .moved) := by
  have h := claim_C8_simple_moves scoutRobot carrierRobot
  refine ⟨?_, ?_⟩
  · rw [h.1 (by decide)]
    decide
  · rw [h.2.2.1 (by decide)]
    decide

/-- C9: the speed factor is the documented pure lookup on the leg count
(2 → 0.8, 4 → 1.0, 6 → 1.2, 8 → 1.1, any other even count ≥ 2 → 0.7),
and for every positive distance the energy cost is
floor(distance × 0.1 × (1 + legCount × 0.05)). -/
theorem claim_C9_speed_and_cost (r : RobotAPattes) (h2 : 2 ≤ r.nombre_pattes) :
    (r.nombre_pattes = 2 → r._calculate_speed_factor = 0.8) ∧
    (r.nombre_pattes = 4 → r._calculate_speed_factor = 1.0) ∧
    (r.nombre_pattes = 6 → r._calculate_speed_factor = 1.2) ∧
    (r.nombre_pattes = 8 → r._calculate_speed_factor = 1.1) ∧
    (r.nombre_pattes % 2 = 0 → r.nombre_pattes ∉ ([2, 4, 6, 8] : List ℤ) →
      r._calculate_speed_factor = 0.7) ∧
    ∀ distance : ℝ, 0 < distance →
      r._calculate_energy_cost distance =
        ⌊distance * 0.1 * (1 + (r.nombre_pattes : ℝ) * 0.05)⌋ := by
  refine ⟨?_, ?_, ?_, ?_, ?_, ?_⟩
  · intro h ; simp [RobotAPattes._calculate_speed_factor, h]
  · intro h ; simp [RobotAPattes._calculate_speed_factor, h]
  · intro h ; simp [RobotAPattes._calculate_speed_factor, h]
  · intro h ; simp [RobotAPattes._calculate_speed_factor, h]
  · intro he hmem
    simp only [List.mem_cons, List.not_mem_nil, or_false, not_or] at hmem
    unfold RobotAPattes._calculate_speed_factor
    rw [if_neg hmem.1, if_neg hmem.2.1, if_neg hmem.2.2.1, if_neg hmem.2.2.2]
  · intro distance hd
    unfold RobotAPattes._calculate_energy_cost
    rw [pyTrunc_eq_floor
      (mul_nonneg (mul_nonneg hd.le (by norm_num)) (leg_term_nonneg h2))]

/-- Witness for C9: the 4-legged robot has speed factor 1.0 and its
energy cost at distance 5 is floor(0.6) = 0. -/
theorem claim_C9_speed_and_cost_witness :
    2 ≤ rexRobot.nombre_pattes ∧
    rexRobot._calculate_speed_factor = 1.0 ∧
    rexRobot._calculate_energy_cost 5 =
      ⌊(5 : ℝ) * 0.1 * (1 + (rexRobot.nombre_pattes : ℝ) * 0.05)⌋ := by
  have h := claim_C9_speed_and_cost rexRobot (by decide)
  exact ⟨by decide, h.2.1 rfl, h.2.2.2.2.2 5 (by norm_num)⟩

/-- C10: a successful `move` changes only the position and energy
fields and a successful `rotate` changes only the orientation and
energy fields; id, name, energy source, leg count and the active flag
survive both, move preserves the orientation and rotate preserves the
position. -/
theorem claim_C10_frame (r : RobotAPattes) (direction : String)
    (distance a : ℝ) (ha : r.is_active = true)
    (hdir : direction ∈ (["forward", "backward", "left", "right"] : List String))
    (hdist : 0 < distance) :
    ((r.move direction distance).2 = .ok ∧
     (r.move direction distance).1.id = r.id ∧
     (r.move direction distance).1.name = r.name ∧
     (r.move direction distance).1.energy_source = r.energy_source ∧
     (r.move direction distance).1.nombre_pattes = r.nombre_pattes ∧
     (r.move direction distance).1.is_active = r.is_active ∧
     (r.move direction distance).1.orientation = r.orientation) ∧
    ((r.rotate (.num a)).2 = .ok ∧
     (r.rotate (.num a)).1.id = r.id ∧
     (r.rotate (.num a)).1.name = r.name ∧
     (r.rotate (.num a)).1.energy_source = r.energy_source ∧
     (r.rotate (.num a)).1.nombre_pattes = r.nombre_pattes ∧
     (r.rotate (.num a)).1.is_active = r.is_active ∧
     (r.rotate (.num a)).1.position = r.position) := by
  rw [move_valid ha hdir hdist, rotate_num ha]
  exact ⟨⟨rfl, rfl, rfl, rfl, rfl, rfl, rfl⟩, ⟨rfl, rfl, rfl, rfl, rfl, rfl, rfl⟩⟩

/-- Witness for C10: moving the 4-legged robot forward by 5 and
rotating it by 1 radian keep its identity, energy source, leg count
and active flag, move keeps the orientation and rotate keeps the
position. -/
theorem claim_C10_frame_witness :
    (rexRobot.move "forward" 5).1.is_active = rexRobot.is_active ∧
    (rexRobot.move "forward" 5).1.orientation = rexRobot.orientation ∧
    (rexRobot.rotate (.num 1)).1.position = rexRobot.position := by
  have h := claim_C10_frame rexRobot "forward" 5 1 rfl (by decide) (by norm_num)
  exact ⟨h.1.2.2.2.2.2.1, h.1.2.2.2.2.2.2, h.2.2.2.2.2.2.2⟩

end RobotSim
